import Mathlib

/-!
Verification development for the issue-tracking service
(src/issue/issue.service.ts).  The service orchestrates persistence of
Issue and Comment records and publishes AMQP events after mutations.
The repository and broker are modelled as explicit state passing: every
operation takes a DBState and returns its result together with the new
state and the list of events published during the call.
-/

namespace IssueService

/-- Update scopes, from enum/update-scope (referenced by the service as
UpdateScope.TITLE and so on). -/
inductive UpdateScope
  | TITLE
  | DESCRIPTION
  | STATUS
  | COMMENT
  deriving DecidableEq

/-- Modelled from the spec: the Issue entity (entities/issue.entity, not
under src/): id (unique, generated), title, description, status,
projectId, comments (one-to-many).  The comments relation is kept in the
Comment records themselves (each names its issue). -/
structure Issue where
  id : String
  title : String
  description : String
  status : String
  projectId : String
  deriving DecidableEq

/-- Modelled from the spec: the Comment entity (entities/comment.entity,
not under src/): id (unique, generated), body/content fields, issue
(belongs to exactly one Issue).  The issue field stores the id of the
owning issue. -/
structure Comment where
  id : String
  content : String
  issue : String
  deriving DecidableEq

/-- Modelled from the spec: CreateIssueDto (dto/create-issue.dto, not
under src/), the valid issue input with fields title, description and
projectId (spec section 8 scenario). -/
structure CreateIssueDto where
  title : String
  description : String
  projectId : String
  deriving DecidableEq

/-- Modelled from the spec: UpdateIssueDto (dto/update-issue.dto, not
under src/), a partial field set over title, description and status; a
field is `some v` exactly when its key is present in the request. -/
structure UpdateIssueDto where
  title : Option String
  description : Option String
  status : Option String
  deriving DecidableEq

/-- Modelled from the spec: CreateCommentDto (dto/create-comment.dto, not
under src/), carrying the comment's body/content fields. -/
structure CreateCommentDto where
  content : String
  deriving DecidableEq

/-- A value inside an event payload: either a string field or the
updateScopes list. -/
inductive Value
  | str (s : String)
  | scopes (l : List UpdateScope)
  deriving DecidableEq

/-- An event published through `amqpConnection.publish(exchange,
routingKey, payload)`; the payload is the JS object literal, a list of
key/value fields in literal order. -/
structure Event where
  exchange : String
  routingKey : String
  payload : List (String × Value)
  deriving DecidableEq

/-- The persistent state behind the two repositories, plus a counter for
store-generated identifiers. -/
structure DBState where
  issues : List Issue
  comments : List Comment
  nextId : Nat
  deriving DecidableEq

/-- Errors of the service: HttpException with status NOT_FOUND or
INTERNAL_SERVER_ERROR, carrying the exception message. -/
inductive Err
  | notFound (msg : String)
  | internal (msg : String)
  deriving DecidableEq

/-- A store-generated identifier (the database generates ids on save). -/
def genId (n : Nat) : String := "id-" ++ toString n

/-- `issueRepository.findOne(issueId)`: the stored issue with that id, if
any. -/
def repoFindOne (st : DBState) (issueId : String) : Option Issue :=
  st.issues.find? (fun i => i.id = issueId)

/-- The payload fields contributed by spreading a CreateIssueDto. -/
def createDtoFields (dto : CreateIssueDto) : List (String × Value) :=
  [("title", .str dto.title), ("description", .str dto.description),
   ("projectId", .str dto.projectId)]

/-- The payload fields contributed by spreading an UpdateIssueDto: only
the keys present in the request, in field order. -/
def updateDtoFields (dto : UpdateIssueDto) : List (String × Value) :=
  (match dto.title with | some v => [("title", Value.str v)] | none => []) ++
  (match dto.description with
   | some v => [("description", Value.str v)] | none => []) ++
  (match dto.status with | some v => [("status", Value.str v)] | none => [])

/-- The payload fields contributed by spreading a CreateCommentDto. -/
def commentDtoFields (dto : CreateCommentDto) : List (String × Value) :=
  [("content", .str dto.content)]

/-- `create(createIssueDto)`, lines 24–49.  The try block wraps the save
and both publish calls; any error raised inside it is caught and rethrown
as an HttpException with message "Could not save issue" and status
INTERNAL_SERVER_ERROR.  The three boolean flags inject a failure of the
save, of the first publish, or of the second publish (failures of the
external collaborators). -/
def create (saveFails pub1Fails pub2Fails : Bool) (dto : CreateIssueDto)
    (st : DBState) : Except Err Issue × DBState × List Event :=
  if saveFails then
    (.error (.internal ("Could not save issue")), st, [])
  else
    let newId := genId st.nextId
    let newIssue : Issue :=
      { id := newId, title := dto.title, description := dto.description,
        status := "", projectId := dto.projectId }
    let st' : DBState :=
      { st with issues := st.issues ++ [newIssue], nextId := st.nextId + 1 }
    if pub1Fails then
      (.error (.internal ("Could not save issue")), st', [])
    else
      let ev1 : Event :=
        { exchange := "direct-exchange",
          routingKey := "project.issue.created",
          payload := [("uuid", .str newId)] }
      if pub2Fails then
        (.error (.internal ("Could not save issue")), st', [ev1])
      else
        let ev2 : Event :=
          { exchange := "news", routingKey := "news.issue.create",
            payload := createDtoFields dto ++ [("issueId", .str newId)] }
        (.ok newIssue, st', [ev1, ev2])

/-- `findAll()`, lines 51–53: all issues, unfiltered. -/
def findAll (st : DBState) : Except Err (List Issue) × DBState × List Event :=
  (.ok st.issues, st, [])

/-- `findAllForProject(projectId)`, lines 55–60: issues whose projectId
matches exactly. -/
def findAllForProject (projectId : String) (st : DBState) :
    Except Err (List Issue) × DBState × List Event :=
  (.ok (st.issues.filter (fun i => i.projectId = projectId)), st, [])

/-- `findOne(issueId)`, lines 62–70: the issue, or an HttpException with
message "Issue not found" and status NOT_FOUND. -/
def findOne (issueId : String) (st : DBState) :
    Except Err Issue × DBState × List Event :=
  match repoFindOne st issueId with
  | some issue => (.ok issue, st, [])
  | none => (.error (.notFound ("Issue not found")), st, [])

/-- Apply a partial field set to a stored issue (the effect of
`issueRepository.update` on a matching row): each present key overwrites
the stored value. -/
def applyUpdate (dto : UpdateIssueDto) (i : Issue) : Issue :=
  { i with
    title := dto.title.getD i.title,
    description := dto.description.getD i.description,
    status := dto.status.getD i.status }

/-- `issueRepository.update(issueId, updateIssueDto)`: update every
stored issue whose id matches. -/
def repoUpdate (st : DBState) (issueId : String) (dto : UpdateIssueDto) :
    DBState :=
  { st with issues :=
      st.issues.map (fun i => if i.id = issueId then applyUpdate dto i else i) }

/-- The updateScopes computation of `update`, lines 80–90: push TITLE,
then DESCRIPTION, then STATUS, for each key present in the input. -/
def computeUpdateScopes (dto : UpdateIssueDto) : List UpdateScope :=
  (if dto.title.isSome then [UpdateScope.TITLE] else []) ++
  (if dto.description.isSome then [UpdateScope.DESCRIPTION] else []) ++
  (if dto.status.isSome then [UpdateScope.STATUS] else [])

/-- Whether the update-input key corresponding to a scope is present in
the request (COMMENT has no corresponding update-input key). -/
def hasKeyFor (dto : UpdateIssueDto) : UpdateScope → Bool
  | .TITLE => dto.title.isSome
  | .DESCRIPTION => dto.description.isSome
  | .STATUS => dto.status.isSome
  | .COMMENT => false

/-- `update(issueId, updateIssueDto)`, lines 72–102: apply the partial
fields, re-read the issue, and on success publish news.issue.update with
the input fields, projectId, issueId and the computed scopes; otherwise
fail with an HttpException with message "Issue not found" and status
NOT_FOUND. -/
def update (issueId : String) (dto : UpdateIssueDto) (st : DBState) :
    Except Err Issue × DBState × List Event :=
  let st' := repoUpdate st issueId dto
  match repoFindOne st' issueId with
  | some updatedIssue =>
    let ev : Event :=
      { exchange := "news", routingKey := "news.issue.update",
        payload := updateDtoFields dto ++
          [("projectId", .str updatedIssue.projectId),
           ("issueId", .str updatedIssue.id),
           ("updateScopes", .scopes (computeUpdateScopes dto))] }
    (.ok updatedIssue, st', [ev])
  | none => (.error (.notFound ("Issue not found")), st', [])

/-- `issueRepository.delete(issueId)`: removes every issue whose id
matches and reports the number of affected rows. -/
def repoDelete (st : DBState) (issueId : String) : DBState × Nat :=
  ({ st with issues := st.issues.filter (fun i => i.id ≠ issueId) },
   (st.issues.filter (fun i => i.id = issueId)).length)

/-- `remove(issueId)`, lines 104–125: fetch the issue via `findOne`
(Not-Found if absent), delete it, throw an HttpException with message
"Post not found" and status NOT_FOUND if zero rows were affected, then
publish project.issue.deleted and news.issue.delete with the snapshot
taken before deletion. -/
def remove (issueId : String) (st : DBState) :
    Except Err Unit × DBState × List Event :=
  match repoFindOne st issueId with
  | none => (.error (.notFound ("Issue not found")), st, [])
  | some issue =>
    let deleted := repoDelete st issueId
    if deleted.2 = 0 then
      (.error (.notFound ("Post not found")), deleted.1, [])
    else
      let ev1 : Event :=
        { exchange := "direct-exchange",
          routingKey := "project.issue.deleted",
          payload := [("uuid", .str issueId)] }
      let ev2 : Event :=
        { exchange := "news", routingKey := "news.issue.delete",
          payload := [("title", .str issue.title),
                      ("description", .str issue.description),
                      ("projectId", .str issue.projectId),
                      ("issueId", .str issue.id)] }
      (.ok (), deleted.1, [ev1, ev2])

/-- `addComment(issueId, createCommentDto)`, lines 127–147: fetch the
issue via `findOne` (Not-Found if absent), create and save a Comment
linked to it, then publish news.issue.update with scope COMMENT and the
comment payload. -/
def addComment (issueId : String) (dto : CreateCommentDto) (st : DBState) :
    Except Err Comment × DBState × List Event :=
  match repoFindOne st issueId with
  | none => (.error (.notFound ("Issue not found")), st, [])
  | some issue =>
    let newComment : Comment :=
      { id := genId st.nextId, content := dto.content, issue := issue.id }
    let st' : DBState :=
      { st with comments := st.comments ++ [newComment],
                nextId := st.nextId + 1 }
    let ev : Event :=
      { exchange := "news", routingKey := "news.issue.update",
        payload := [("issueId", .str issue.id),
                    ("projectId", .str issue.projectId),
                    ("updateScopes", .scopes [UpdateScope.COMMENT])] ++
                   commentDtoFields dto }
    (.ok newComment, st', [ev])

/-- An issue together with its populated comments relation. -/
structure IssueWithComments where
  issue : Issue
  comments : List Comment
  deriving DecidableEq

/-- `issueRepository.findOne(issueId)` with the comments relation
populated. -/
def repoFindOneWithComments (st : DBState) (issueId : String) :
    Option IssueWithComments :=
  (repoFindOne st issueId).map
    (fun i =>
      { issue := i, comments := st.comments.filter (fun c => c.issue = i.id) })

/-- `findAllCommentsForIssue(issueId)`, lines 149–159.  In the source the
repository call on line 150 is not awaited, so the truthiness test on
line 154 inspects the Promise object, which is always truthy: the
function returns the promise's resolved value (the issue, or undefined
when absent) and the Not-Found throw on line 158 is unreachable. -/
def findAllCommentsForIssue (issueId : String) (st : DBState) :
    Except Err (Option IssueWithComments) × DBState × List Event :=
  (.ok (repoFindOneWithComments st issueId), st, [])

/-- `findAllComments()`, lines 161–163: all comments, unfiltered. -/
def findAllComments (st : DBState) :
    Except Err (List Comment) × DBState × List Event :=
  (.ok st.comments, st, [])

/-! Helper lemmas shared by several claim theorems. -/

/-- Generated identifiers are never the empty string. -/
theorem genId_ne_empty (n : Nat) : genId n ≠ "" := by
  intro h
  have hlen := congrArg String.length h
  rw [genId, String.length_append] at hlen
  have h3 : ("id-").length = 3 := rfl
  have h0 : ("" : String).length = 0 := rfl
  rw [h3, h0] at hlen
  omega

/-- An issue returned by the repository lookup is stored and carries the
looked-up id. -/
theorem repoFindOne_mem {st : DBState} {issueId : String} {i : Issue}
    (h : repoFindOne st issueId = some i) :
    i ∈ st.issues ∧ i.id = issueId := by
  rw [repoFindOne] at h
  refine ⟨List.mem_of_find?_eq_some h, ?_⟩
  have := List.find?_some h
  simpa using this

/-- After deleting an id, the repository lookup for that id is empty. -/
theorem repoFindOne_delete_self (st : DBState) (issueId : String) :
    repoFindOne (repoDelete st issueId).1 issueId = none := by
  rw [repoFindOne, repoDelete]
  rw [List.find?_eq_none]
  intro x hx
  have hxne := (List.mem_filter.mp hx).2
  simp only [decide_eq_true_eq] at hxne ⊢
  exact hxne

/-- A successful repository lookup means the delete affects at least one
row. -/
theorem repoDelete_affected_pos {st : DBState} {issueId : String} {i : Issue}
    (h : repoFindOne st issueId = some i) :
    (repoDelete st issueId).2 ≠ 0 := by
  obtain ⟨hmem, hid⟩ := repoFindOne_mem h
  have hfmem : i ∈ st.issues.filter (fun j => j.id = issueId) := by
    rw [List.mem_filter]
    exact ⟨hmem, by simp [hid]⟩
  rw [repoDelete]
  simp only []
  intro hlen
  rw [List.length_eq_zero] at hlen
  rw [hlen] at hfmem
  exact List.not_mem_nil i hfmem

/-! Claim theorems. -/

/-- C1 counterexample: the claim says a failure of a publish call in
`create` propagates to the caller uncaught, with no translation into an
Internal-Error.  In this run the save succeeds and the first publish
fails, yet the caller receives the Internal-Error with message
"Could not save issue": the try/catch of lines 27–48 wraps the publish
calls too. -/
theorem C1_publish_failure_translated :
    (create false true false ⟨"Bug A", "desc", "P1"⟩ ⟨[], [], 0⟩).1 =
      Except.error (.internal ("Could not save issue")) := rfl

/-- C1 (amended): in `create`, a failure of the save or of either of the
two publish calls is caught and translated into the Internal-Error with
message "Could not save issue"; `create` returns that error exactly when
one of the three steps fails. -/
theorem C1_create_catch_wraps_all (saveFails pub1Fails pub2Fails : Bool)
    (dto : CreateIssueDto) (st : DBState) :
    (create saveFails pub1Fails pub2Fails dto st).1 =
        Except.error (.internal ("Could not save issue")) ↔
      (saveFails || pub1Fails || pub2Fails) = true := by
  cases saveFails <;> cases pub1Fails <;> cases pub2Fails <;>
    simp [create]

/-- C2: the computed update scopes are presence-based: TITLE is in the
scopes iff the title key is present in the input, DESCRIPTION iff the
description key is present, STATUS iff the status key is present (the
stored issue's values are never consulted), and an input carrying only a
status key yields the singleton STATUS list for every value of that
key. -/
theorem C2_updateScopes_presence (dto : UpdateIssueDto) :
    (UpdateScope.TITLE ∈ computeUpdateScopes dto ↔ dto.title.isSome = true) ∧
    (UpdateScope.DESCRIPTION ∈ computeUpdateScopes dto ↔
      dto.description.isSome = true) ∧
    (UpdateScope.STATUS ∈ computeUpdateScopes dto ↔
      dto.status.isSome = true) ∧
    (∀ x : String,
      computeUpdateScopes ⟨none, none, some x⟩ = [UpdateScope.STATUS]) := by
  obtain ⟨t, d, s⟩ := dto
  cases t <;> cases d <;> cases s <;> simp [computeUpdateScopes]

/-- C3: a successful `create` appends a new Issue to the store, returns
it with a non-empty generated id and fields equal to the input fields,
and publishes exactly two events: project.issue.created on
direct-exchange with the new id as uuid, and news.issue.create on news
with the input fields plus the new id as issueId. -/
theorem C3_create_success (dto : CreateIssueDto) (st : DBState) :
    ∃ (newIssue : Issue) (st' : DBState),
      create false false false dto st =
        (.ok newIssue, st',
         [{ exchange := "direct-exchange",
            routingKey := "project.issue.created",
            payload := [("uuid", .str newIssue.id)] },
          { exchange := "news", routingKey := "news.issue.create",
            payload := createDtoFields dto ++
              [("issueId", .str newIssue.id)] }]) ∧
      newIssue.id ≠ "" ∧
      newIssue.title = dto.title ∧
      newIssue.description = dto.description ∧
      newIssue.projectId = dto.projectId ∧
      st'.issues = st.issues ++ [newIssue] ∧
      st'.comments = st.comments :=
  ⟨_, _, rfl, genId_ne_empty st.nextId, rfl, rfl, rfl, rfl, rfl⟩

/-- C4: `remove` fails with Not-Found when the issue is absent; on an
existing issue it deletes it, publishes project.issue.deleted on
direct-exchange with the uuid and news.issue.delete on news with the
title, description, projectId and issueId snapshotted before deletion,
and a subsequent `findOne` on the same id fails with Not-Found. -/
theorem C4_remove_spec (issueId : String) (st : DBState) :
    (repoFindOne st issueId = none →
       remove issueId st =
         (.error (.notFound ("Issue not found")), st, [])) ∧
    (∀ issue, repoFindOne st issueId = some issue →
       remove issueId st =
         (.ok (), (repoDelete st issueId).1,
          [{ exchange := "direct-exchange",
             routingKey := "project.issue.deleted",
             payload := [("uuid", .str issueId)] },
           { exchange := "news", routingKey := "news.issue.delete",
             payload := [("title", .str issue.title),
                         ("description", .str issue.description),
                         ("projectId", .str issue.projectId),
                         ("issueId", .str issue.id)] }]) ∧
       (findOne issueId (repoDelete st issueId).1).1 =
         Except.error (.notFound ("Issue not found"))) := by
  constructor
  · intro h
    simp [remove, h]
  · intro issue h
    have haff := repoDelete_affected_pos h
    constructor
    · rw [remove, h]
      simp [haff]
    · rw [findOne, repoFindOne_delete_self]

/-- C4 witness: `remove` on a stored issue at a concrete state. -/
theorem C4_remove_spec_witness :
    remove ("id-0") ⟨[⟨"id-0", "t", "d", "", "P1"⟩], [], 1⟩ =
      (.ok (),
       (repoDelete ⟨[⟨"id-0", "t", "d", "", "P1"⟩], [], 1⟩ ("id-0")).1,
       [{ exchange := "direct-exchange",
          routingKey := "project.issue.deleted",
          payload := [("uuid", .str ("id-0"))] },
        { exchange := "news", routingKey := "news.issue.delete",
          payload := [("title", .str ("t")),
                      ("description", .str ("d")),
                      ("projectId", .str ("P1")),
                      ("issueId", .str ("id-0"))] }]) ∧
    (findOne ("id-0")
        (repoDelete ⟨[⟨"id-0", "t", "d", "", "P1"⟩], [], 1⟩ ("id-0")).1).1 =
      Except.error (.notFound ("Issue not found")) :=
  (C4_remove_spec ("id-0") ⟨[⟨"id-0", "t", "d", "", "P1"⟩], [], 1⟩).2
    ⟨"id-0", "t", "d", "", "P1"⟩ rfl

/-- C5: `addComment` on an issue id with no stored issue fails with the
Not-Found error and has no side effects: the state is unchanged and no
event is published. -/
theorem C5_addComment_notFound (issueId : String) (dto : CreateCommentDto)
    (st : DBState) (h : repoFindOne st issueId = none) :
    addComment issueId dto st =
      (.error (.notFound ("Issue not found")), st, []) := by
  simp [addComment, h]

/-- C5 witness: `addComment` against an empty store. -/
theorem C5_addComment_notFound_witness :
    addComment ("missing") ⟨"hello"⟩ ⟨[], [], 0⟩ =
      (.error (.notFound ("Issue not found")), ⟨[], [], 0⟩, []) :=
  C5_addComment_notFound ("missing") ⟨"hello"⟩ ⟨[], [], 0⟩ rfl

/-- C6: because the repository call on line 150 is not awaited, the
truthiness check sees a Promise and `findAllCommentsForIssue` on an
absent issue resolves successfully with no value instead of failing with
Not-Found; on every input it resolves successfully, so the Not-Found
branch of the claim never occurs. -/
theorem C6_missing_await :
    findAllCommentsForIssue ("missing") ⟨[], [], 0⟩ =
      (.ok none, ⟨[], [], 0⟩, []) ∧
    ∀ issueId st,
      ∃ v, (findAllCommentsForIssue issueId st).1 = Except.ok v :=
  ⟨rfl, fun _ _ => ⟨_, rfl⟩⟩

/-- C7: `update` on an issue id with no stored issue after the update
attempt fails with the Not-Found error and publishes no event; whenever
`update` publishes anything at all, it returns a successfully updated
issue. -/
theorem C7_update_notFound (issueId : String) (dto : UpdateIssueDto)
    (st : DBState) :
    (repoFindOne (repoUpdate st issueId dto) issueId = none →
       update issueId dto st =
         (.error (.notFound ("Issue not found")),
          repoUpdate st issueId dto, [])) ∧
    ((update issueId dto st).2.2 ≠ [] →
       ∃ i, (update issueId dto st).1 = Except.ok i) := by
  constructor
  · intro h
    simp [update, h]
  · intro hne
    cases hf : repoFindOne (repoUpdate st issueId dto) issueId with
    | none =>
      exfalso
      apply hne
      simp [update, hf]
    | some i =>
      exact ⟨i, by simp [update, hf]⟩

/-- C7 witness: a missing id on the empty store, and an existing id with
a published event. -/
theorem C7_update_notFound_witness :
    update ("x") ⟨none, none, none⟩ ⟨[], [], 0⟩ =
      (.error (.notFound ("Issue not found")),
       repoUpdate ⟨[], [], 0⟩ ("x") ⟨none, none, none⟩, []) ∧
    ∃ i, (update ("id-0") ⟨some ("t2"), none, none⟩
            ⟨[⟨"id-0", "t", "d", "", "P1"⟩], [], 1⟩).1 = Except.ok i :=
  ⟨(C7_update_notFound ("x") ⟨none, none, none⟩ ⟨[], [], 0⟩).1 rfl,
   (C7_update_notFound ("id-0") ⟨some ("t2"), none, none⟩
      ⟨[⟨"id-0", "t", "d", "", "P1"⟩], [], 1⟩).2 (by decide)⟩

/-- C8: a successful `addComment` links the new comment to the issue
fetched from the store under the given id: the issue exists in the prior
state, the comment's issue field is that issue's id, and the comment is
the one persisted. -/
theorem C8_comment_links_issue (issueId : String) (dto : CreateCommentDto)
    (st : DBState) (c : Comment) (st' : DBState) (evs : List Event)
    (h : addComment issueId dto st = (.ok c, st', evs)) :
    ∃ issue, repoFindOne st issueId = some issue ∧ issue ∈ st.issues ∧
      issue.id = issueId ∧ c.issue = issue.id ∧
      st'.comments = st.comments ++ [c] := by
  cases hf : repoFindOne st issueId with
  | none => simp [addComment, hf] at h
  | some issue =>
    simp only [addComment, hf, Prod.mk.injEq, Except.ok.injEq] at h
    obtain ⟨hc, hst, hev⟩ := h
    subst hc
    subst hst
    exact ⟨issue, rfl, (repoFindOne_mem hf).1, (repoFindOne_mem hf).2,
      rfl, rfl⟩

/-- C8 witness: adding a comment to a stored issue at a concrete
state. -/
theorem C8_comment_links_issue_witness :
    ∃ issue,
      repoFindOne ⟨[⟨"id-0", "t", "d", "", "P1"⟩], [], 1⟩ ("id-0") =
          some issue ∧
      issue ∈ (⟨[⟨"id-0", "t", "d", "", "P1"⟩], [], 1⟩ : DBState).issues ∧
      issue.id = "id-0" ∧
      (⟨"id-1", "hi", "id-0"⟩ : Comment).issue = issue.id ∧
      (⟨[⟨"id-0", "t", "d", "", "P1"⟩], [⟨"id-1", "hi", "id-0"⟩], 2⟩ :
          DBState).comments =
        (⟨[⟨"id-0", "t", "d", "", "P1"⟩], [], 1⟩ : DBState).comments ++
          [⟨"id-1", "hi", "id-0"⟩] :=
  C8_comment_links_issue ("id-0") ⟨"hi"⟩
    ⟨[⟨"id-0", "t", "d", "", "P1"⟩], [], 1⟩
    ⟨"id-1", "hi", "id-0"⟩
    ⟨[⟨"id-0", "t", "d", "", "P1"⟩], [⟨"id-1", "hi", "id-0"⟩], 2⟩
    [{ exchange := "news", routingKey := "news.issue.update",
       payload := [("issueId", .str ("id-0")),
                   ("projectId", .str ("P1")),
                   ("updateScopes", .scopes [UpdateScope.COMMENT]),
                   ("content", .str ("hi"))] }]
    rfl

/-- C9: the computed scopes are exactly the subsequence of the fixed
sequence TITLE, DESCRIPTION, STATUS whose keys are present in the input,
in that fixed order; and an update carrying none of the three keys on an
existing issue still publishes the news.issue.update event, with an
empty scopes list. -/
theorem C9_scopes_order_and_empty (dto : UpdateIssueDto) (issueId : String)
    (st : DBState) :
    computeUpdateScopes dto =
      [UpdateScope.TITLE, UpdateScope.DESCRIPTION,
       UpdateScope.STATUS].filter (hasKeyFor dto) ∧
    (dto.title = none → dto.description = none → dto.status = none →
     ∀ issue, repoFindOne (repoUpdate st issueId dto) issueId = some issue →
       (update issueId dto st).2.2 =
         [{ exchange := "news", routingKey := "news.issue.update",
            payload := [("projectId", .str issue.projectId),
                        ("issueId", .str issue.id),
                        ("updateScopes", .scopes [])] }]) := by
  constructor
  · obtain ⟨t, d, s⟩ := dto
    cases t <;> cases d <;> cases s <;> rfl
  · intro ht hd hs issue hfind
    simp [update, hfind, updateDtoFields, computeUpdateScopes, ht, hd, hs]

/-- C9 witness: an empty partial field set on a stored issue publishes
the event with an empty scopes list. -/
theorem C9_scopes_order_and_empty_witness :
    (update ("id-0") ⟨none, none, none⟩
        ⟨[⟨"id-0", "t", "d", "", "P1"⟩], [], 1⟩).2.2 =
      [{ exchange := "news", routingKey := "news.issue.update",
         payload := [("projectId", .str ("P1")),
                     ("issueId", .str ("id-0")),
                     ("updateScopes", .scopes [])] }] :=
  (C9_scopes_order_and_empty ⟨none, none, none⟩ ("id-0")
      ⟨[⟨"id-0", "t", "d", "", "P1"⟩], [], 1⟩).2 rfl rfl rfl
    ⟨"id-0", "t", "d", "", "P1"⟩ rfl

/-- C10: the read operations `findAll`, `findAllForProject`, `findOne`
and `findAllComments` publish no events and leave the persisted state
unchanged, for every input. -/
theorem C10_reads_no_effects (st : DBState) (projectId issueId : String) :
    (findAll st).2 = (st, []) ∧
    (findAllForProject projectId st).2 = (st, []) ∧
    (findOne issueId st).2 = (st, []) ∧
    (findAllComments st).2 = (st, []) := by
  refine ⟨rfl, rfl, ?_, rfl⟩
  cases hf : repoFindOne st issueId <;> simp [findOne, hf]

end IssueService
